import Mathlib

/-!
Verification of the fitness-tracking calculation module (`src/main.py`).

The Python class hierarchy `Training` / `Running` / `SportsWalking` /
`Swimming` is embedded as a closed inductive type over `ℚ`: Python's
float arithmetic on these small decimal constants is modelled by exact
rational arithmetic, and fallible Python operations (division by zero in
`get_mean_speed`, tag lookup in `read_package`) are modelled with
`Except`.
-/

namespace Tracker

/-- `InfoMessage.__init__` (src/main.py:10-20): the report value object. -/
structure InfoMessage where
  training_type : String
  duration : ℚ
  distance : ℚ
  speed : ℚ
  calories : ℚ
  deriving DecidableEq, Repr

/-- The three concrete `Training` subclasses as a closed variant type.
Field names follow the attributes set in the Python constructors:
`action_times`, `duration_hour`, `weight_kg` are shared
(src/main.py:38-45); `SportsWalking` additionally stores `height_cm`
(the value `height / self.L` actually assigned at src/main.py:98);
`Swimming` additionally stores `length_pool_meters` and
`count_pool_times` (src/main.py:125-126). -/
inductive Training where
  | Running (action_times duration_hour weight_kg : ℚ)
  | SportsWalking (action_times duration_hour weight_kg height_cm : ℚ)
  | Swimming (action_times duration_hour weight_kg
      length_pool_meters count_pool_times : ℚ)
  deriving DecidableEq, Repr

/-- `Training.M_IN_KM` (src/main.py:35). -/
def M_IN_KM : ℚ := 1000

/-- `Training.MINUTES_IN_HOUR` (src/main.py:36). -/
def MINUTES_IN_HOUR : ℚ := 60

/-- `Running.__init__`, inherited from `Training.__init__`
(src/main.py:38-45). -/
def mkRunning (action duration weight : ℚ) : Training :=
  .Running action duration weight

/-- `SportsWalking.__init__` (src/main.py:91-98): calls the base
constructor, then stores `self.height_cm = height / self.L` with
`L = 100`. -/
def mkSportsWalking (action duration weight height : ℚ) : Training :=
  .SportsWalking action duration weight (height / 100)

/-- `Swimming.__init__` (src/main.py:117-126): calls the base
constructor, then stores the pool length and lap count unchanged. -/
def mkSwimming (action duration weight length_pool count_pool : ℚ) :
    Training :=
  .Swimming action duration weight length_pool count_pool

/-- Shared field `self.action_times` (src/main.py:43). -/
def Training.action_times : Training → ℚ
  | .Running a _ _ => a
  | .SportsWalking a _ _ _ => a
  | .Swimming a _ _ _ _ => a

/-- Shared field `self.duration_hour` (src/main.py:44). -/
def Training.duration_hour : Training → ℚ
  | .Running _ d _ => d
  | .SportsWalking _ d _ _ => d
  | .Swimming _ d _ _ _ => d

/-- Shared field `self.weight_kg` (src/main.py:45). -/
def Training.weight_kg : Training → ℚ
  | .Running _ _ w => w
  | .SportsWalking _ _ w _ => w
  | .Swimming _ _ w _ _ => w

/-- The class attribute `LEN_STEP`: `Training.LEN_STEP = 0.65`
(src/main.py:34), overridden only by `Swimming.LEN_STEP = 1.38`
(src/main.py:113). -/
def Training.LEN_STEP : Training → ℚ
  | .Running _ _ _ => 65 / 100
  | .SportsWalking _ _ _ _ => 65 / 100
  | .Swimming _ _ _ _ _ => 138 / 100

/-- `self.__class__.__name__`, as used by `show_training_info`
(src/main.py:62). -/
def Training.className : Training → String
  | .Running _ _ _ => "Running"
  | .SportsWalking _ _ _ _ => "SportsWalking"
  | .Swimming _ _ _ _ _ => "Swimming"

/-- `Training.get_distance` (src/main.py:52-54):
`self.action_times * self.LEN_STEP / self.M_IN_KM`.  It is not
overridden by any subclass, so it is a single function of the variant's
fields, with only the `LEN_STEP` constant varying. -/
def Training.get_distance (t : Training) : ℚ :=
  t.action_times * t.LEN_STEP / M_IN_KM

/-- `get_mean_speed`: the base method
`self.get_distance() / self.duration_hour` (src/main.py:56-58) is
inherited by `Running` and `SportsWalking`; `Swimming` overrides it with
`self.length_pool_meters * self.count_pool_times / self.M_IN_KM /
self.duration_hour` (src/main.py:128-131). -/
def Training.get_mean_speed : Training → ℚ
  | .Swimming _ d _ l c => l * c / M_IN_KM / d
  | t => t.get_distance / t.duration_hour

/-- `get_spent_calories`, the per-variant method:
`Running.get_spent_calories` (src/main.py:75-79) with constants
`CALORIES_MEAN_SPEED_MULTIPLIER = 18`, `CALORIES_MEAN_SPEED_SHIFT =
1.79`; `SportsWalking.get_spent_calories` (src/main.py:100-107) with
constants `coe_ff1 = 0.029`, `coe_ff2 = 0.035`, `K = 2`, `G = 0.278`;
`Swimming.get_spent_calories` (src/main.py:133-136) with constants
`COEFF_CALOR1 = 1.1`, `COEFF_CALOR2 = 2`. -/
def Training.get_spent_calories (t : Training) : ℚ :=
  match t with
  | .Running _ d w =>
      (18 * t.get_mean_speed + 179 / 100) * w / M_IN_KM
        * (d * MINUTES_IN_HOUR)
  | .SportsWalking _ d w h =>
      (35 / 1000 * w
        + ((278 / 1000 * t.get_mean_speed) ^ 2 / h) * (29 / 1000) * w)
        * (d * MINUTES_IN_HOUR)
  | .Swimming _ d w _ _ =>
      (t.get_mean_speed + 11 / 10) * 2 * w * d

/-- `Training.show_training_info` (src/main.py:60-66). -/
def Training.show_training_info (t : Training) : InfoMessage :=
  { training_type := t.className
    duration := t.duration_hour
    distance := t.get_distance
    speed := t.get_mean_speed
    calories := t.get_spent_calories }

/-- Python division: `a / b` raises `ZeroDivisionError` when `b == 0`. -/
def pydiv (a b : ℚ) : Except String ℚ :=
  if b = 0 then .error "ZeroDivisionError" else .ok (a / b)

/-- The base method body of `get_mean_speed` (src/main.py:56-58) with
Python's fallible division made explicit: `get_distance` itself only
divides by the constant `M_IN_KM = 1000`, so the one fallible operation
is the division by `self.duration_hour`. -/
def Training.default_mean_speedE (t : Training) : Except String ℚ :=
  pydiv t.get_distance t.duration_hour

/-- Errors surfaced by `read_package` and the constructors it calls. -/
inductive ReadError where
  | unknownWorkoutType
  | arityMismatch
  deriving DecidableEq, Repr

/-- `read_package` (src/main.py:139-149): looks the tag up in
`{'SWM': Swimming, 'RUN': Running, 'WLK': SportsWalking}`, raises
`ValueError` for any other tag, and otherwise positionally spreads
`data` into the chosen constructor (`*data`); a list whose length does
not match that constructor's arity raises a `TypeError` from the call
itself, modelled as `arityMismatch`. -/
def read_package (workout_type : String) (data : List ℚ) :
    Except ReadError Training :=
  if workout_type = "SWM" then
    match data with
    | [a, d, w, l, c] => .ok (mkSwimming a d w l c)
    | _ => .error .arityMismatch
  else if workout_type = "RUN" then
    match data with
    | [a, d, w] => .ok (mkRunning a d w)
    | _ => .error .arityMismatch
  else if workout_type = "WLK" then
    match data with
    | [a, d, w, h] => .ok (mkSportsWalking a d w h)
    | _ => .error .arityMismatch
  else .error .unknownWorkoutType

/-! State-passing embedding of the methods, for the immutability claim:
every method body after `__init__` (src/main.py:52-66, 75-79, 100-107,
128-136) only reads attributes of `self` and never assigns one, so each
method is modelled as a state transformer that returns the receiver's
(unchanged) field state together with the computed value. -/

/-- `get_distance` as a state transformer on the receiver. -/
def Training.get_distanceS (t : Training) : Training × ℚ :=
  (t, t.get_distance)

/-- `get_mean_speed` as a state transformer on the receiver. -/
def Training.get_mean_speedS (t : Training) : Training × ℚ :=
  (t, t.get_mean_speed)

/-- `get_spent_calories` as a state transformer on the receiver. -/
def Training.get_spent_caloriesS (t : Training) : Training × ℚ :=
  (t, t.get_spent_calories)

/-- `show_training_info` as a state transformer on the receiver. -/
def Training.show_training_infoS (t : Training) : Training × InfoMessage :=
  (t, t.show_training_info)

/-! ## Theorems for the claims -/

/-- C1: for every `Swimming` workout, `get_distance` is the (inherited,
not overridden) base formula `action_count * 1.38 / 1000` with the
Swimming-specific step constant `LEN_STEP = 1.38`, while the overridden
`get_mean_speed` is `pool_length_m * pool_laps / 1000 / duration_hours`;
the two quantities are computed from different inputs. -/
theorem swimming_distance_speed_asymmetry (a d w l c : ℚ) :
    (mkSwimming a d w l c).get_distance = a * (138 / 100) / 1000 ∧
    (mkSwimming a d w l c).get_mean_speed = l * c / 1000 / d := by
  constructor <;>
    simp [mkSwimming, Training.get_distance, Training.get_mean_speed,
      Training.action_times, Training.LEN_STEP, M_IN_KM]

/-- C2 counterexample: for the Swimming record
`action_count = 720, duration = 1, weight = 80, pool_length = 25,
pool_laps = 40`, `get_distance()` is NOT approximately `0.468` km: it
differs from `0.468` by more than `0.25` (it is `0.9936`, the base
formula with step constant `1.38`). -/
theorem swimming_sample_distance_not_0468 :
    1 / 4 < |(mkSwimming 720 1 80 25 40).get_distance - 468 / 1000| := by
  have h : (mkSwimming 720 1 80 25 40).get_distance - 468 / 1000
      = 657 / 1250 := by
    norm_num [mkSwimming, Training.get_distance, Training.action_times,
      Training.LEN_STEP, M_IN_KM]
  rw [h, abs_of_pos (by norm_num)]
  norm_num

/-- C2 amended: for the Swimming record
`action_count = 720, duration = 1, weight = 80, pool_length = 25,
pool_laps = 40`: `get_distance() = 720 * 1.38 / 1000 = 0.9936` km,
`get_mean_speed() = 1.0` km/h, and
`get_spent_calories() = (1.0 + 1.1) * 2 * 80 * 1 = 336.0`. -/
theorem swimming_sample_values :
    (mkSwimming 720 1 80 25 40).get_distance = 9936 / 10000 ∧
    (mkSwimming 720 1 80 25 40).get_mean_speed = 1 ∧
    (mkSwimming 720 1 80 25 40).get_spent_calories
      = (1 + 11 / 10) * 2 * 80 * 1 ∧
    (1 + 11 / 10) * 2 * 80 * 1 = (336 : ℚ) := by
  refine ⟨?_, ?_, ?_, by norm_num⟩ <;>
    norm_num [mkSwimming, Training.get_distance, Training.get_mean_speed,
      Training.get_spent_calories, Training.action_times, Training.LEN_STEP,
      M_IN_KM]

/-- C3 counterexample: for the Running record
`action_count = 15000, duration = 1, weight = 75`,
`get_spent_calories()` is NOT approximately `797.006`: it differs from
`797.006` by more than `0.5` (it is exactly `797.805`). -/
theorem running_sample_calories_not_797006 :
    1 / 2 < |(mkRunning 15000 1 75).get_spent_calories - 797006 / 1000| := by
  have h : (mkRunning 15000 1 75).get_spent_calories - 797006 / 1000
      = 799 / 1000 := by
    norm_num [mkRunning, Training.get_spent_calories, Training.get_mean_speed,
      Training.get_distance, Training.action_times, Training.duration_hour,
      Training.LEN_STEP, M_IN_KM, MINUTES_IN_HOUR]
  rw [h, abs_of_pos (by norm_num)]
  norm_num

/-- C3 amended: for the Running record
`action_count = 15000, duration = 1, weight = 75`: `get_distance()` is
`9.75` km, `get_mean_speed()` is `9.75` km/h, and
`get_spent_calories()` equals `(18 * 9.75 + 1.79) * 75 / 1000 * 60`,
which is exactly `797.805` (not approximately `797.006`). -/
theorem running_sample_values :
    (mkRunning 15000 1 75).get_distance = 975 / 100 ∧
    (mkRunning 15000 1 75).get_mean_speed = 975 / 100 ∧
    (mkRunning 15000 1 75).get_spent_calories
      = (18 * (975 / 100) + 179 / 100) * 75 / 1000 * 60 ∧
    (18 * (975 / 100) + 179 / 100) * 75 / 1000 * 60 = (159561 / 200 : ℚ) := by
  refine ⟨?_, ?_, ?_, by norm_num⟩ <;>
    norm_num [mkRunning, Training.get_distance, Training.get_mean_speed,
      Training.get_spent_calories, Training.action_times,
      Training.duration_hour, Training.LEN_STEP, M_IN_KM, MINUTES_IN_HOUR]

/-- C4: `read_package` raises the unrecognized-workout-type error for
every tag outside `{"SWM", "RUN", "WLK"}`, and for every tag inside the
set it positionally spreads the measurements into the corresponding
variant's constructor (`"SWM"` → `Swimming`, `"RUN"` → `Running`,
`"WLK"` → `SportsWalking`). -/
theorem read_package_dispatch (tag : String) (data : List ℚ) :
    (tag ≠ "SWM" → tag ≠ "RUN" → tag ≠ "WLK" →
      read_package tag data = .error .unknownWorkoutType) ∧
    (∀ a d w l c : ℚ,
      read_package "SWM" [a, d, w, l, c] = .ok (mkSwimming a d w l c)) ∧
    (∀ a d w : ℚ, read_package "RUN" [a, d, w] = .ok (mkRunning a d w)) ∧
    (∀ a d w h : ℚ,
      read_package "WLK" [a, d, w, h] = .ok (mkSportsWalking a d w h)) := by
  refine ⟨fun h1 h2 h3 => ?_, fun a d w l c => rfl, fun a d w => rfl,
    fun a d w h => rfl⟩
  simp [read_package, h1, h2, h3]

/-- C4 witness: an unrecognized tag `"XXX"` fails with the
unrecognized-workout-type error, and `"RUN"` constructs a `Running`. -/
theorem read_package_dispatch_witness :
    read_package "XXX" [720, 1, 80] = .error .unknownWorkoutType ∧
    read_package "RUN" [15000, 1, 75] = .ok (mkRunning 15000 1 75) :=
  ⟨(read_package_dispatch "XXX" [720, 1, 80]).1 (by decide) (by decide)
      (by decide),
    (read_package_dispatch "RUN" []).2.2.1 15000 1 75⟩

/-- C5: a `SportsWalking` workout constructed from a raw `height`
measurement stores `height / 100` (meters), and `get_spent_calories()`
equals
`(0.035 * weight + ((0.278 * speed) ^ 2 / height_m) * 0.029 * weight) *
(duration * 60)` where `speed` is the base mean speed
`action * 0.65 / 1000 / duration`. -/
theorem walking_height_and_calories (a d w h : ℚ)
    (_hd : 0 < d) (_hh : 0 < h) :
    mkSportsWalking a d w h = .SportsWalking a d w (h / 100) ∧
    (mkSportsWalking a d w h).get_spent_calories
      = (35 / 1000 * w
          + ((278 / 1000 * (a * (65 / 100) / 1000 / d)) ^ 2 / (h / 100))
            * (29 / 1000) * w)
        * (d * 60) := by
  refine ⟨rfl, ?_⟩
  simp [mkSportsWalking, Training.get_spent_calories, Training.get_mean_speed,
    Training.get_distance, Training.action_times, Training.duration_hour,
    M_IN_KM, MINUTES_IN_HOUR, Training.LEN_STEP]

/-- C5 witness: the walking sample record
`action = 9000, duration = 1, weight = 75, height = 180`. -/
theorem walking_height_and_calories_witness :
    mkSportsWalking 9000 1 75 180 = .SportsWalking 9000 1 75 (180 / 100) ∧
    (mkSportsWalking 9000 1 75 180).get_spent_calories
      = (35 / 1000 * 75
          + ((278 / 1000 * (9000 * (65 / 100) / 1000 / 1)) ^ 2 / (180 / 100))
            * (29 / 1000) * 75)
        * (1 * 60) :=
  walking_height_and_calories 9000 1 75 180 (by norm_num) (by norm_num)

/-- C6: for every `Running` workout with positive duration and weight
and nonnegative action count, `get_distance()` equals
`action_count * 0.65 / 1000`; in the exact rational model the equality
is on the nose. -/
theorem running_distance (a d w : ℚ)
    (_hd : 0 < d) (_hw : 0 < w) (_ha : 0 ≤ a) :
    (mkRunning a d w).get_distance = a * (65 / 100) / 1000 := by
  simp [mkRunning, Training.get_distance, Training.action_times,
    Training.LEN_STEP, M_IN_KM]

/-- C6 witness: the running sample record
`action = 15000, duration = 1, weight = 75`. -/
theorem running_distance_witness :
    (mkRunning 15000 1 75).get_distance = 15000 * (65 / 100) / 1000 :=
  running_distance 15000 1 75 (by norm_num) (by norm_num) (by norm_num)

/-- C7: for every variant constructed from its raw measurements, the
`duration` field of the report produced by `show_training_info()` is the
original `duration` input unchanged. -/
theorem report_duration_roundtrip (a d w h l c : ℚ) :
    (mkRunning a d w).show_training_info.duration = d ∧
    (mkSportsWalking a d w h).show_training_info.duration = d ∧
    (mkSwimming a d w l c).show_training_info.duration = d :=
  ⟨rfl, rfl, rfl⟩

/-- C8: the default `get_mean_speed` body, with Python's fallible
division explicit: for positive duration it is well-defined and returns
`get_distance() / duration_hours`, and it fails with a
division-by-zero error exactly when `duration_hours = 0`. -/
theorem default_mean_speed_spec (t : Training) :
    (0 < t.duration_hour →
      t.default_mean_speedE = .ok (t.get_distance / t.duration_hour)) ∧
    (t.default_mean_speedE = .error "ZeroDivisionError" ↔
      t.duration_hour = 0) := by
  unfold Training.default_mean_speedE pydiv
  constructor
  · intro hd
    rw [if_neg (ne_of_gt hd)]
  · constructor
    · intro h
      by_contra hne
      rw [if_neg hne] at h
      exact Except.noConfusion h
    · intro h
      rw [if_pos h]

/-- C8 witness: the running sample record has positive duration, so the
fallible mean speed is defined and is the distance over the duration. -/
theorem default_mean_speed_witness :
    0 < (mkRunning 15000 1 75).duration_hour ∧
    (mkRunning 15000 1 75).default_mean_speedE
      = .ok ((mkRunning 15000 1 75).get_distance
          / (mkRunning 15000 1 75).duration_hour) :=
  ⟨by norm_num [mkRunning, Training.duration_hour],
    (default_mean_speed_spec (mkRunning 15000 1 75)).1
      (by norm_num [mkRunning, Training.duration_hour])⟩

/-- C9: no operation mutates the workout — each method, modelled as a
state transformer, returns the receiver unchanged — and every computed
quantity is a pure deterministic function of the fields: calling an
operation a second time on the state left by the first call yields an
equal result. -/
theorem workout_immutable_pure (t : Training) :
    (t.get_distanceS.1 = t ∧ t.get_mean_speedS.1 = t ∧
      t.get_spent_caloriesS.1 = t ∧ t.show_training_infoS.1 = t) ∧
    (t.get_distanceS.1.get_distanceS.2 = t.get_distanceS.2 ∧
      t.get_mean_speedS.1.get_mean_speedS.2 = t.get_mean_speedS.2 ∧
      t.get_spent_caloriesS.1.get_spent_caloriesS.2
        = t.get_spent_caloriesS.2 ∧
      t.show_training_infoS.1.show_training_infoS.2
        = t.show_training_infoS.2) :=
  ⟨⟨rfl, rfl, rfl, rfl⟩, ⟨rfl, rfl, rfl, rfl⟩⟩

/-- C10: two `Swimming` workouts that differ only in `action_count`
(same duration, weight, pool length and lap count) have equal
`get_mean_speed()` and equal `get_spent_calories()`: the action count
influences neither the swimming speed nor the calorie result. -/
theorem swimming_speed_calories_ignore_action (a1 a2 d w l c : ℚ) :
    (mkSwimming a1 d w l c).get_mean_speed
      = (mkSwimming a2 d w l c).get_mean_speed ∧
    (mkSwimming a1 d w l c).get_spent_calories
      = (mkSwimming a2 d w l c).get_spent_calories :=
  ⟨rfl, rfl⟩

end Tracker
